import Mathlib

/-!
Verification of the request handler in
src/BACKEND/src/controller/ai.controller.js.

The handler `getReview` reads `req.body.code`, rejects falsy values with
HTTP 400 and the body "Prompt is required", otherwise awaits the
generation service `aiService(code)` and answers either 200 with the
returned text, or, when the awaited call throws, logs one diagnostic line
and answers 500 with a fixed generic message.

The embedding records one inbound request handling as a list of events
(the outbound client call, its settling, diagnostic log lines, and the
HTTP response), so that counting and ordering properties of the handler
can be stated directly. The generation service itself lives in a separate
module and is abstracted as a parameter of type
JSValue to Except GenError String, covering every possible behaviour of
the awaited call: resolving with some text or rejecting with some thrown
value.
-/

/-- A JavaScript runtime value, to the precision the handler observes it:
the handler only tests truthiness of `req.body.code` and passes the value
on unchanged, so the embedding keeps the value kinds that decide
truthiness (numbers are modelled as integers; objects and arrays are
opaque truthy values identified by a tag). -/
inductive JSValue where
  | undefined : JSValue
  | null : JSValue
  | bool : Bool → JSValue
  | num : Int → JSValue
  | str : String → JSValue
  | obj : Nat → JSValue
deriving DecidableEq, Repr

/-- JavaScript truthiness, as tested by `if (!code)` in the controller:
undefined, null, false, 0 and the empty string are falsy, everything else
(including every object and array) is truthy. -/
def truthy : JSValue → Bool
  | JSValue.undefined => false
  | JSValue.null => false
  | JSValue.bool b => b
  | JSValue.num n => n != 0
  | JSValue.str s => s != ""
  | JSValue.obj _ => true

/-- A thrown value from the awaited service call, to the precision the
catch block observes it: only its `message` property is read (for the
diagnostic log line). -/
structure GenError where
  message : String
deriving DecidableEq, Repr

/-- An inbound HTTP request, to the precision the handler observes it:
the handler reads fields of `req.body` only, and of those only `code`. -/
structure Request where
  body : String → JSValue

/-- An HTTP response as produced by `res.status(n).send(b)`. -/
structure Response where
  status : Nat
  body : String
deriving DecidableEq, Repr

instance : DecidableEq (Except GenError String) := fun a b =>
  match a, b with
  | Except.ok x, Except.ok y =>
      if h : x = y then isTrue (by rw [h])
      else isFalse (by intro hc; cases hc; exact h rfl)
  | Except.ok _, Except.error _ => isFalse (by intro hc; cases hc)
  | Except.error _, Except.ok _ => isFalse (by intro hc; cases hc)
  | Except.error x, Except.error y =>
      if h : x = y then isTrue (by rw [h])
      else isFalse (by intro hc; cases hc; exact h rfl)

/-- One observable step of the handler: an outbound call to the
generation service with its argument, the settling of that call (resolved
text or thrown value), a `console.error` diagnostic line, or the sending
of the HTTP response. -/
inductive Event where
  | callClient : JSValue → Event
  | clientSettled : Except GenError String → Event
  | logLine : String → Event
  | respond : Response → Event
deriving DecidableEq, Repr

/-- True exactly on response events. -/
def Event.isRespond : Event → Bool
  | Event.respond _ => true
  | _ => false

/-- True exactly on events settling the awaited service call. -/
def Event.isSettled : Event → Bool
  | Event.clientSettled _ => true
  | _ => false

/-- The event trace of one run of `getReview` from
src/BACKEND/src/controller/ai.controller.js, transcribed line by line:
read `req.body.code`; if falsy, send 400 "Prompt is required" and return;
otherwise call and await `aiService(code)`; on resolution send 200 with
the resolved text; on a throw, log "Error in controller:" with the
message of the thrown value and send 500 with the fixed generic body. -/
def getReviewTrace (aiService : JSValue → Except GenError String)
    (req : Request) : List Event :=
  let code := req.body "code"
  if truthy code = false then
    [Event.respond ⟨400, "Prompt is required"⟩]
  else
    match aiService code with
    | Except.ok response =>
        [Event.callClient code,
         Event.clientSettled (Except.ok response),
         Event.respond ⟨200, response⟩]
    | Except.error e =>
        [Event.callClient code,
         Event.clientSettled (Except.error e),
         Event.logLine ("Error in controller: " ++ e.message),
         Event.respond ⟨500, "An error occurred while processing your request."⟩]

/-- The responses sent during a trace, in order. -/
def responsesOf (t : List Event) : List Response :=
  t.filterMap fun e =>
    match e with
    | Event.respond r => some r
    | _ => none

/-- The arguments of the outbound generation-service calls of a trace,
in order. -/
def callsOf (t : List Event) : List JSValue :=
  t.filterMap fun e =>
    match e with
    | Event.callClient v => some v
    | _ => none

/-- The diagnostic log lines emitted during a trace, in order. -/
def logsOf (t : List Event) : List String :=
  t.filterMap fun e =>
    match e with
    | Event.logLine s => some s
    | _ => none

/-- A request whose body has no fields at all. -/
def reqEmpty : Request := ⟨fun _ => JSValue.undefined⟩

/-- The code snippet of scenario A of the spec. -/
def sumSnippet : String := "function sum()\x7breturn a+b;\x7d"

/-- A request whose body carries the scenario A snippet under `code`. -/
def reqSum : Request :=
  ⟨fun f => if f = "code" then JSValue.str sumSnippet else JSValue.undefined⟩

/-- A request agreeing with `reqSum` on `code` but carrying an extra
unrelated body field. -/
def reqSumExtra : Request :=
  ⟨fun f =>
    if f = "code" then JSValue.str sumSnippet
    else if f = "user" then JSValue.str "alice" else JSValue.undefined⟩

/-- A request whose `code` field is a truthy non-string value. -/
def reqNum : Request :=
  ⟨fun f => if f = "code" then JSValue.num 7 else JSValue.undefined⟩

/-- A generation service that always resolves with a fixed review text. -/
def aiOk : JSValue → Except GenError String :=
  fun _ => Except.ok "Looks good overall."

/-- A generation service that always rejects. -/
def aiBoom : JSValue → Except GenError String :=
  fun _ => Except.error ⟨"quota exceeded"⟩

/-- C1: a request whose `code` field is falsy is answered with status 400
and the exact body "Prompt is required", and the generation service is
never called. -/
theorem getReview_falsy_rejected (ai : JSValue → Except GenError String)
    (req : Request) (h : truthy (req.body "code") = false) :
    responsesOf (getReviewTrace ai req) = [⟨400, "Prompt is required"⟩] ∧
    callsOf (getReviewTrace ai req) = [] := by
  simp [getReviewTrace, h, responsesOf, callsOf]

/-- Witness for C1 at a request with no `code` field. -/
theorem getReview_falsy_rejected_witness :
    responsesOf (getReviewTrace aiOk reqEmpty) = [⟨400, "Prompt is required"⟩] ∧
    callsOf (getReviewTrace aiOk reqEmpty) = [] :=
  getReview_falsy_rejected aiOk reqEmpty (by rfl)

/-- C2: when `code` is truthy and the awaited service call throws any
value, the handler answers status 500 with the exact fixed body; since
this holds for every thrown value `e`, the response body carries no
detail of the underlying failure. -/
theorem getReview_failure_generic_500 (ai : JSValue → Except GenError String)
    (req : Request) (e : GenError) (ht : truthy (req.body "code") = true)
    (he : ai (req.body "code") = Except.error e) :
    responsesOf (getReviewTrace ai req) =
      [⟨500, "An error occurred while processing your request."⟩] := by
  simp [getReviewTrace, ht, he, responsesOf]

/-- Witness for C2 at a rejecting service. -/
theorem getReview_failure_generic_500_witness :
    responsesOf (getReviewTrace aiBoom reqSum) =
      [⟨500, "An error occurred while processing your request."⟩] :=
  getReview_failure_generic_500 aiBoom reqSum ⟨"quota exceeded"⟩ (by rfl) (by rfl)

/-- C3: when `code` is truthy and the service resolves with text `t`, the
handler answers status 200 with body exactly `t`. -/
theorem getReview_success_exact_body (ai : JSValue → Except GenError String)
    (req : Request) (t : String) (ht : truthy (req.body "code") = true)
    (hok : ai (req.body "code") = Except.ok t) :
    responsesOf (getReviewTrace ai req) = [⟨200, t⟩] := by
  simp [getReviewTrace, ht, hok, responsesOf]

/-- Witness for C3 at a resolving service. -/
theorem getReview_success_exact_body_witness :
    responsesOf (getReviewTrace aiOk reqSum) = [⟨200, "Looks good overall."⟩] :=
  getReview_success_exact_body aiOk reqSum "Looks good overall." (by rfl) (by rfl)

/-- C4: when `code` is a non-empty string, exactly one outbound call is
made to the generation service, and its argument is that string
unchanged. -/
theorem getReview_calls_once_exact (ai : JSValue → Except GenError String)
    (req : Request) (s : String) (hc : req.body "code" = JSValue.str s)
    (hs : s ≠ "") :
    callsOf (getReviewTrace ai req) = [JSValue.str s] := by
  cases hres : ai (JSValue.str s) <;>
    simp [getReviewTrace, hc, truthy, bne_iff_ne, hs, hres, callsOf]

/-- Witness for C4 at the scenario A snippet. -/
theorem getReview_calls_once_exact_witness :
    callsOf (getReviewTrace aiOk reqSum) = [JSValue.str sumSnippet] :=
  getReview_calls_once_exact aiOk reqSum sumSnippet (by rfl) (by decide)

/-- C5: the awaited service call settles (a generation result or failure
exists) only for a request whose `code` field passed the truthiness
validation; a trace of a request that failed validation contains no
settling event. -/
theorem getReview_settle_needs_validation (ai : JSValue → Except GenError String)
    (req : Request) (e : Event) (he : e ∈ getReviewTrace ai req)
    (hs : e.isSettled = true) :
    truthy (req.body "code") = true := by
  cases ht : truthy (req.body "code") with
  | true => rfl
  | false =>
      exfalso
      simp [getReviewTrace, ht] at he
      subst he
      simp [Event.isSettled] at hs

/-- Witness for C5 at a resolving service and the scenario A request. -/
theorem getReview_settle_needs_validation_witness :
    truthy (reqSum.body "code") = true :=
  getReview_settle_needs_validation aiOk reqSum
    (Event.clientSettled (Except.ok "Looks good overall.")) (by decide) (by rfl)

/-- C6: a trace carries exactly one diagnostic log line exactly when its
response has status 500; on any other outcome no log line is emitted; and
every 500 response has the fixed generic body, so the logged detail never
reaches the response body. -/
theorem getReview_log_iff_failure (ai : JSValue → Except GenError String)
    (req : Request) :
    ((logsOf (getReviewTrace ai req)).length = 1 ↔
      (responsesOf (getReviewTrace ai req)).map Response.status = [500]) ∧
    ((responsesOf (getReviewTrace ai req)).map Response.status ≠ [500] →
      logsOf (getReviewTrace ai req) = []) ∧
    (∀ r ∈ responsesOf (getReviewTrace ai req), r.status = 500 →
      r.body = "An error occurred while processing your request.") := by
  cases ht : truthy (req.body "code") with
  | false => simp [getReviewTrace, ht, logsOf, responsesOf]
  | true =>
      cases hres : ai (req.body "code") <;>
        simp [getReviewTrace, ht, hres, logsOf, responsesOf]

/-- Witness for C6: a rejecting service yields exactly one log line. -/
theorem getReview_log_iff_failure_witness :
    (logsOf (getReviewTrace aiBoom reqSum)).length = 1 :=
  (getReview_log_iff_failure aiBoom reqSum).1.mpr (by rfl)

/-- C7: on the truthy path, every response event of the trace occurs
strictly after an event settling the awaited service call: the response
is never sent while the outbound call is still pending. -/
theorem getReview_respond_after_settle (ai : JSValue → Except GenError String)
    (req : Request) (ht : truthy (req.body "code") = true) (i : Nat)
    (hr : ∃ r, (getReviewTrace ai req)[i]? = some (Event.respond r)) :
    ∃ j, j < i ∧ ∃ res, (getReviewTrace ai req)[j]? =
      some (Event.clientSettled res) := by
  obtain ⟨r, hr⟩ := hr
  cases hres : ai (req.body "code") with
  | ok t =>
      have hform : getReviewTrace ai req =
          [Event.callClient (req.body "code"),
           Event.clientSettled (Except.ok t),
           Event.respond ⟨200, t⟩] := by
        simp [getReviewTrace, ht, hres]
      rw [hform] at hr ⊢
      match i with
      | 0 => simp at hr
      | 1 => simp at hr
      | 2 => exact ⟨1, by omega, Except.ok t, rfl⟩
      | n + 3 => simp at hr
  | error e =>
      have hform : getReviewTrace ai req =
          [Event.callClient (req.body "code"),
           Event.clientSettled (Except.error e),
           Event.logLine ("Error in controller: " ++ e.message),
           Event.respond ⟨500, "An error occurred while processing your request."⟩] := by
        simp [getReviewTrace, ht, hres]
      rw [hform] at hr ⊢
      match i with
      | 0 => simp at hr
      | 1 => simp at hr
      | 2 => simp at hr
      | 3 => exact ⟨1, by omega, Except.error e, rfl⟩
      | n + 4 => simp at hr

/-- Witness for C7 at a rejecting service: the response at position 3 is
preceded by a settling event. -/
theorem getReview_respond_after_settle_witness :
    ∃ j, j < 3 ∧ ∃ res, (getReviewTrace aiBoom reqSum)[j]? =
      some (Event.clientSettled res) :=
  getReview_respond_after_settle aiBoom reqSum (by rfl) 3
    ⟨⟨500, "An error occurred while processing your request."⟩, by rfl⟩

/-- C8: for every request and every behaviour of the generation service,
the handler sends exactly one response, and it is one of exactly three
outcomes: 400 with "Prompt is required", 200 with the resolved text, or
500 with the fixed generic failure body. -/
theorem getReview_single_response_three_outcomes
    (ai : JSValue → Except GenError String) (req : Request) :
    ∃ r, responsesOf (getReviewTrace ai req) = [r] ∧
      (r = ⟨400, "Prompt is required"⟩ ∨
       (∃ t, ai (req.body "code") = Except.ok t ∧ r = ⟨200, t⟩) ∨
       r = ⟨500, "An error occurred while processing your request."⟩) := by
  cases ht : truthy (req.body "code") with
  | false =>
      exact ⟨⟨400, "Prompt is required"⟩,
        by simp [getReviewTrace, ht, responsesOf], Or.inl rfl⟩
  | true =>
      cases hres : ai (req.body "code") with
      | ok t =>
          exact ⟨⟨200, t⟩, by simp [getReviewTrace, ht, hres, responsesOf],
            Or.inr (Or.inl ⟨t, rfl, rfl⟩)⟩
      | error e =>
          exact ⟨⟨500, "An error occurred while processing your request."⟩,
            by simp [getReviewTrace, ht, hres, responsesOf],
            Or.inr (Or.inr rfl)⟩

/-- C9: every truthy `code` value, of whatever kind, passes validation
and is forwarded to the generation service exactly as read from the
request body: no type check and no conversion happen. -/
theorem getReview_forwards_any_truthy (ai : JSValue → Except GenError String)
    (req : Request) (ht : truthy (req.body "code") = true) :
    callsOf (getReviewTrace ai req) = [req.body "code"] := by
  cases hres : ai (req.body "code") <;>
    simp [getReviewTrace, ht, hres, callsOf]

/-- Witness for C9 at a request whose `code` is the number 7. -/
theorem getReview_forwards_any_truthy_witness :
    callsOf (getReviewTrace aiOk reqNum) = [JSValue.num 7] :=
  getReview_forwards_any_truthy aiOk reqNum (by rfl)

/-- C10: two requests agreeing on the `code` field produce identical
traces under the same service behaviour, so the whole observable outcome
depends on no other part of the request. -/
theorem getReview_depends_only_on_code (ai : JSValue → Except GenError String)
    (req1 req2 : Request) (h : req1.body "code" = req2.body "code") :
    getReviewTrace ai req1 = getReviewTrace ai req2 := by
  simp only [getReviewTrace, h]

/-- Witness for C10: a request with an extra unrelated body field gets
the same trace as one without it. -/
theorem getReview_depends_only_on_code_witness :
    getReviewTrace aiOk reqSum = getReviewTrace aiOk reqSumExtra :=
  getReview_depends_only_on_code aiOk reqSum reqSumExtra (by rfl)
